import Mathlib

/-!
Verification of the core of mbland/ses-subscription-verifier: the address
validation engine (`email/address.go`) and the delivery-feedback dispatcher
(`handler/sns.go`, plus the inbound-mail abuse filter `mailto.go`).

The Go code is embedded shallowly:

* The `Resolver`, `Suppressor`, `SubscriptionAgent` and `Bouncer` interfaces,
  and the standard-library `mail.ParseAddress` and `json.Unmarshal` calls, are
  modelled as function-valued fields of explicit environment records, so that
  theorems quantify over every possible behavior of those collaborators.
* Go errors are modelled by their message strings (`Option String`, `none`
  meaning a nil error); `errors.Join` joins the messages with a newline, which
  is exactly the message the joined Go error renders.
* Side effects (calls to `Suppress`, `Remove`, `Restore`, `Unsubscribe`,
  `Bounce`, and log output) are made explicit: each embedded function returns
  the list of calls it performed and the list of lines it logged, in order.
* A Go runtime panic (out-of-range slice) is modelled by an `Option` result
  being `none`.
* String manipulation (`strings.Split`, `strings.Join`, ...) is re-implemented
  by structural recursion on the character list, mirroring the Go semantics,
  so that concrete instances evaluate inside the kernel.
-/

namespace SesVerifier

/-- Mirror of Go `strings.Split(s, sep)` for a single-character separator,
on character lists. `splitOnChar c l` never returns `[]`. -/
def splitOnChar (c : Char) : List Char → List (List Char)
  | [] => [[]]
  | x :: xs =>
    match splitOnChar c xs with
    | [] => [[x]]
    | y :: ys => if x = c then [] :: y :: ys else (x :: y) :: ys

/-- Go `strings.Split` (single-character separator) on `String`. -/
def strSplit (c : Char) (s : String) : List String :=
  (splitOnChar c s.data).map String.mk

/-- Go `strings.Join(elems, sep)`. -/
def strJoinWith (sep : String) : List String → String
  | [] => ""
  | x :: xs =>
    match xs with
    | [] => x
    | _ :: _ => x ++ sep ++ strJoinWith sep xs

/-- The message rendered by Go `errors.Join(errs...)` for a non-empty list of
non-nil errors: the individual messages joined by a newline. -/
def joinErrs : List String → String := strJoinWith "\n"

/-- Go `strings.HasPrefix(s, string(c))` for a one-character prefix. -/
def strStartsWithChar (c : Char) (s : String) : Bool :=
  match s.data with
  | [] => false
  | x :: _ => x = c

namespace Email

/-- Decimal value of a digit run (used by the `net.ParseIP` model). -/
def ipv4PartValue (l : List Char) : Nat :=
  l.foldl (fun n c => n * 10 + (c.toNat - 48)) 0

/-- One dotted-decimal IPv4 component as accepted by Go `net.ParseIP`:
1-3 digits, value at most 255, no leading zero. -/
def isIPv4Part (l : List Char) : Bool :=
  !l.isEmpty && l.length ≤ 3 && l.all Char.isDigit &&
    (l.length == 1 || l.headD '0' ≠ '0') && ipv4PartValue l ≤ 255

def isHexDigitChar (c : Char) : Bool :=
  c.isDigit || ('a' ≤ c && c ≤ 'f') || ('A' ≤ c && c ≤ 'F')

/-- Model of the Go standard library's `net.ParseIP(s) != nil`.

Exact for strings containing no colon (the only case the repository's inputs
can reach, since a domain parsed out of an email address never contains `:`
unless bracketed, and bracketed domains are filtered before this check):
such a string parses iff it is four valid dotted-decimal IPv4 components.
Strings containing a colon are conservatively treated as IPv6 candidates by
shape (at most 8 groups of at most 4 hex digits). -/
def parseIPSome (s : String) : Bool :=
  (match splitOnChar '.' s.data with
   | [a, b, c, d] => isIPv4Part a && isIPv4Part b && isIPv4Part c && isIPv4Part d
   | _ => false)
  || (s.data.contains ':' &&
      (splitOnChar ':' s.data).length ≤ 8 &&
      (splitOnChar ':' s.data).all (fun g => g.length ≤ 4 && g.all isHexDigitChar))

/-- The `invalidUserNames` map of `email/address.go`. -/
def invalidUserNames (s : String) : Bool :=
  s == "postmaster" || s == "abuse"

/-- The `invalidDomains` map of `email/address.go`. -/
def invalidDomains (s : String) : Bool :=
  s == "localhost" || s == "example.com"

/-- `getPrimaryDomain` from `email/address.go`:

    parts := strings.Split(domainName, ".")
    return strings.Join(parts[len(parts)-2:], ".")

When `domainName` contains no dot, `parts` has length 1 and the slice
expression `parts[len(parts)-2:]` has a negative lower bound, which is a Go
runtime panic (slice bounds out of range); that panic is modelled as `none`. -/
def getPrimaryDomain (domainName : String) : Option String :=
  let parts := strSplit '.' domainName
  if parts.length < 2 then none
  else some (strJoinWith "." (parts.drop (parts.length - 2)))

/-- `isKnownInvalidAddress` from `email/address.go`. The Go `||` chain is
short-circuiting, hence the `if` chain; the final clause calls
`getPrimaryDomain`, so its panic propagates (`none`). -/
def isKnownInvalidAddress (user domain : String) : Option Bool :=
  if invalidUserNames ((strSplit '+' user).headD "") then some true
  else if strStartsWithChar '[' domain then some true
  else if parseIPSome domain then some true
  else if invalidDomains domain then some true
  else (getPrimaryDomain domain).map invalidDomains

/-- A DNS MX record (`net.MX`): host and priority. -/
structure MX where
  host : String
  pref : Nat
deriving Repr, DecidableEq

/-- A `net.DNSError` as distinguished by the code: either a resolver-reported
not-found condition (`IsNotFound == true`) or any other failure. The string is
the error's message. -/
inductive DnsErr where
  | notFound (msg : String)
  | other (msg : String)
deriving Repr, DecidableEq

/-- Message of `ops.ErrExternal` (package `ops`, `errors.New`). -/
def errExternalMsg : String := "external error"

/-- How Go `fmt` renders a wrapped error operand; a nil operand renders as
`%!w(<nil>)`. -/
def optErrMsg : Option String → String
  | some m => m
  | none => "%!w(<nil>)"

def dnsErrMsg : Option DnsErr → String
  | some (DnsErr.notFound m) => m
  | some (DnsErr.other m) => m
  | none => "%!w(<nil>)"

/-- The generic `lookup` wrapper from `email/address.go`: given the raw
resolver result for `target`, it keeps any non-empty record list (clearing the
error), maps an empty result with a not-found `DNSError` to a plain
`"no records for <target>"` error, and wraps every other empty result as an
`ops.ErrExternal` infrastructure failure. -/
def lookupResult {α : Type} (target : String) :
    List α × Option DnsErr → List α × Option String
  | (values, err) =>
    if values.isEmpty then
      match err with
      | some (DnsErr.notFound _) => ([], some ("no records for " ++ target))
      | e => ([], some (errExternalMsg ++ ": failed to resolve " ++ target
                          ++ ": " ++ dnsErrMsg e))
    else (values, none)

/-- Behaviors of the external collaborators of `ProdAddressValidator`:
the three `Resolver` methods, the two `Suppressor` methods, and the
standard-library `mail.ParseAddress` (modelled by the canonical address it
returns on success, `none` on a parse error). -/
structure Env where
  lookupMX : String → List MX × Option DnsErr
  lookupHost : String → List String × Option DnsErr
  lookupAddr : String → List String × Option DnsErr
  isSuppressed : String → Bool × Option String
  suppress : String → Option String
  mailParse : String → Option String

/-- The Go loops `for i, x := range xs { errs[i] = f(x); if errs[i] == nil
{ return nil } }` followed by joining `errs`: `none` when some element
succeeds (short-circuit), otherwise the collected error messages, one per
element, in order. -/
def firstFailures {α : Type} (f : α → Option String) : List α → Option (List String)
  | [] => some []
  | a :: as =>
    match f a with
    | none => none
    | some e =>
      match firstFailures f as with
      | none => none
      | some es => some (e :: es)

/-- `checkHostResolvesToAddress` from `email/address.go`. -/
def checkHostResolvesToAddress (env : Env) (host addr : String) : Option String :=
  match lookupResult host (env.lookupHost host) with
  | (_, some e) => some e
  | (addrs, none) =>
    if addrs.contains addr then none
    else some (host ++ " resolves to " ++ strJoinWith ", " addrs)

/-- `checkReverseLookupHostResolvesToOriginalIp` from `email/address.go`. -/
def checkReverseLookupHostResolvesToOriginalIp (env : Env) (addr : String) :
    Option String :=
  match lookupResult addr (env.lookupAddr addr) with
  | (_, some e) => some e
  | (hosts, none) =>
    match firstFailures (fun host => checkHostResolvesToAddress env host addr) hosts with
    | none => none
    | some errs => some ("no host resolves to " ++ addr ++ ": " ++ joinErrs errs)

/-- `checkMailHost` from `email/address.go`. -/
def checkMailHost (env : Env) (mailHost : String) : Option String :=
  match lookupResult mailHost (env.lookupHost mailHost) with
  | (_, some e) => some e
  | (mailHostIps, none) =>
    match firstFailures (checkReverseLookupHostResolvesToOriginalIp env) mailHostIps with
    | none => none
    | some errs =>
      some ("reverse lookup of addresses for " ++ mailHost ++ " failed: "
              ++ joinErrs errs)

/-- `checkMailHosts` from `email/address.go`. Returns the error (if any)
together with the list of `Suppressor.Suppress` calls performed, in order.
When the MX lookup yields no records it returns early without suppressing;
when the lookup succeeded but every MX candidate fails verification it calls
`Suppress(email)` exactly once and joins the aggregated candidate errors with
any suppression error. -/
def checkMailHosts (env : Env) (email domain : String) :
    Option String × List String :=
  match lookupResult domain (env.lookupMX domain) with
  | (mxRecords, errOpt) =>
    if mxRecords.isEmpty then
      (some ("failed to retrieve MX records for " ++ domain ++ ": "
               ++ optErrMsg errOpt), [])
    else
      match firstFailures (fun r => checkMailHost env r.host) mxRecords with
      | none => (none, [])
      | some errs =>
        let e := "no valid MX hosts for " ++ domain ++ ": " ++ joinErrs errs
        match env.suppress email with
        | none => (some e, [email])
        | some supErr => (some (e ++ "\n" ++ supErr), [email])

/-- `parseAddress`'s split of the canonical address at its last `'@'`:
`user = email[0:i]`, `domain = email[i+1:]` with
`i = strings.LastIndexByte(email, '@')`. `mail.ParseAddress` guarantees the
`'@'` is present; for an address without one, the Go index expressions would
panic, modelled as `none`. -/
def splitAtLastAt (email : String) : Option (String × String) :=
  let parts := strSplit '@' email
  if parts.length ≤ 1 then none
  else some (strJoinWith "@" parts.dropLast, parts.getLastD "")

/-- The `(failure, err)` pair returned by `ValidateAddress`, plus the list of
`Suppress` calls it performed. `failure` is `ValidationFailure.Reason`. -/
structure VResult where
  failure : Option String
  err : Option String
  suppressCalls : List String
deriving Repr, DecidableEq

/-- `ProdAddressValidator.ValidateAddress` from `email/address.go`, as the
chain of its `if/else if` branches. The outer `Option` is `none` exactly when
the Go code panics (see `getPrimaryDomain` / `splitAtLastAt`). -/
def validateAddress (env : Env) (address : String) : Option VResult :=
  match env.mailParse address with
  | none => some ⟨some ("address failed to parse: " ++ address), none, []⟩
  | some email =>
    match splitAtLastAt email with
    | none => none
    | some (user, domain) =>
      match isKnownInvalidAddress user domain with
      | none => none
      | some true => some ⟨some ("invalid email address: " ++ address), none, []⟩
      | some false =>
        match env.isSuppressed email with
        | (_, some e) => some ⟨none, some e, []⟩
        | (true, none) =>
          some ⟨some ("suppressed email address: " ++ address), none, []⟩
        | (false, none) =>
          match checkMailHosts env email domain with
          | (none, calls) => some ⟨none, none, calls⟩
          | (some e, calls) =>
            some ⟨some ("address failed DNS validation: " ++ address ++ ": " ++ e),
                  none, calls⟩

end Email

namespace Handler

/-- The fields of `events.SesEventRecord` consumed by `handler/sns.go`:
the envelope's event type, the `mail` object's message id and common headers,
and the type-specific payloads, flattened. -/
structure SesEventRecord where
  eventType : String
  messageId : String
  fromAddrs : List String
  toAddrs : List String
  subject : String
  bounceType : String
  bounceSubType : String
  complaintSubType : String
  complaintFeedbackType : String
  rejectReason : String
deriving Repr, DecidableEq

/-- One call to the `agent.SubscriptionAgent` made by the dispatcher. -/
inductive AgentCall where
  | remove (email : String)
  | restore (email : String)
deriving Repr, DecidableEq

/-- Behavior of the `agent.SubscriptionAgent`: the error (message) returned by
`Remove` / `Restore` for each address, `none` meaning success. -/
structure Agent where
  removeErr : String → Option String
  restoreErr : String → Option String

/-- `sesEventHandler.logOutcome`: the exact line written by

    `%s [Id:"%s" From:"%s" To:"%s" Subject:"%s"]: %s: %s`

with the from/to header lists comma-joined and `Details` (the raw record)
appended. -/
def logOutcome (ev : SesEventRecord) (details outcome : String) : String :=
  ev.eventType ++ " [Id:\"" ++ ev.messageId
    ++ "\" From:\"" ++ strJoinWith "," ev.fromAddrs
    ++ "\" To:\"" ++ strJoinWith "," ev.toAddrs
    ++ "\" Subject:\"" ++ ev.subject
    ++ "\"]: " ++ outcome ++ ": " ++ details

/-- The `recipientUpdater` struct of `handler/sns.go`; `mkCall` records which
agent method `action` is bound to (`Remove` or `Restore` at the two
construction sites). -/
structure RecipientUpdater where
  action : String → Option String
  successPrefix : String
  errPrefix : String
  mkCall : String → AgentCall

/-- `recipientUpdater.updateRecipient`: the per-recipient outcome string. -/
def updateRecipient (up : RecipientUpdater) (email reason : String) : String :=
  let emailAndReason := " " ++ email ++ " due to: " ++ reason
  match up.action email with
  | some e => up.errPrefix ++ emailAndReason ++ ": " ++ e
  | none => up.successPrefix ++ emailAndReason

/-- `sesEventHandler.updateRecipients`: one agent call and one logged outcome
line per address of the `To` header, in order; a failing call only changes its
own line. -/
def updateRecipients (up : RecipientUpdater) (ev : SesEventRecord)
    (details reason : String) : List String × List AgentCall :=
  (ev.toAddrs.map fun email => logOutcome ev details (updateRecipient up email reason),
   ev.toAddrs.map up.mkCall)

/-- `sesEventHandler.removeRecipients`. -/
def removeRecipients (agent : Agent) (ev : SesEventRecord)
    (details reason : String) : List String × List AgentCall :=
  updateRecipients ⟨agent.removeErr, "removed", "error removing", AgentCall.remove⟩
    ev details reason

/-- `sesEventHandler.restoreRecipients`. -/
def restoreRecipients (agent : Agent) (ev : SesEventRecord)
    (details reason : String) : List String × List AgentCall :=
  updateRecipients ⟨agent.restoreErr, "restored", "error restoring", AgentCall.restore⟩
    ev details reason

/-- `sesEventHandler.HandleEvent` from `handler/sns.go` together with the
type-specific handlers it dispatches to (`bounceHandler`, `complaintHandler`,
`rejectHandler`, the Send/Delivery case and the unimplemented default).
Returns the logged lines and the agent calls, in order. -/
def handleSesEvent (agent : Agent) (ev : SesEventRecord) (details : String) :
    List String × List AgentCall :=
  if ev.eventType = "Bounce" then
    let reason := ev.bounceType ++ "/" ++ ev.bounceSubType
    if ev.bounceType = "Transient" then
      ([logOutcome ev details ("not removing recipients: " ++ reason)], [])
    else removeRecipients agent ev details reason
  else if ev.eventType = "Complaint" then
    let reason0 := if ev.complaintSubType = "" then ev.complaintFeedbackType
                   else ev.complaintSubType
    let reason := if reason0 = "" then "unknown" else reason0
    if reason = "not-spam" then restoreRecipients agent ev details reason
    else removeRecipients agent ev details reason
  else if ev.eventType = "Reject" then
    ([logOutcome ev details ev.rejectReason], [])
  else if ev.eventType = "Send" ∨ ev.eventType = "Delivery" then
    ([logOutcome ev details "success"], [])
  else
    (["unimplemented event type: " ++ ev.eventType], [])

/-- `snsHandler.HandleEvent`: one pass over the batch's SNS records.
`parseSes` models `parseSesEvent` (a `json.Unmarshal` of the message plus
field extraction); a parse failure logs the error with the raw message and
the loop continues with the next record. -/
def handleSnsEvent (agent : Agent) (parseSes : String → Except String SesEventRecord) :
    List String → List String × List AgentCall
  | [] => ([], [])
  | msg :: rest =>
    let head :=
      match parseSes msg with
      | Except.error e =>
        (["parsing SES event from SNS failed: " ++ e ++ ": " ++ msg], [])
      | Except.ok ev => handleSesEvent agent ev msg
    let tail := handleSnsEvent agent parseSes rest
    (head.1 ++ tail.1, head.2 ++ tail.2)

/-- The head every §6-form audit line for a record starts with: everything
`logOutcome` writes before the outcome. -/
def sesAuditHead (ev : SesEventRecord) : String :=
  ev.eventType ++ " [Id:\"" ++ ev.messageId
    ++ "\" From:\"" ++ strJoinWith "," ev.fromAddrs
    ++ "\" To:\"" ++ strJoinWith "," ev.toAddrs
    ++ "\" Subject:\"" ++ ev.subject
    ++ "\"]: "

/-- The event types `sesEventHandler.HandleEvent` implements. -/
def recognizedSesEventType (t : String) : Bool :=
  t == "Bounce" || t == "Complaint" || t == "Reject" || t == "Send" || t == "Delivery"

/-- The effective complaint reason, stated the way the amended claim reads:
`complaintSubType` if non-empty, else `complaintFeedbackType` if non-empty,
else `"unknown"`. -/
def complaintReasonSpec (ev : SesEventRecord) : String :=
  if ev.complaintSubType ≠ "" then ev.complaintSubType
  else if ev.complaintFeedbackType ≠ "" then ev.complaintFeedbackType
  else "unknown"

end Handler

namespace Mailto

/-- The fields of the `mailtoEvent` built by `newMailtoEvent` (verdicts and
policy already uppercased there). The receipt timestamp is opaque. -/
structure MailtoEvent where
  fromAddrs : List String
  toAddrs : List String
  subject : String
  messageId : String
  timestamp : Nat
  recipients : List String
  spfVerdict : String
  dkimVerdict : String
  spamVerdict : String
  virusVerdict : String
  dmarcVerdict : String
  dmarcPolicy : String
deriving Repr, DecidableEq

/-- An `ops.OperationResult` as consumed here: `Unsubscribed`, or any other
value carrying its `String()` rendering. -/
inductive UnsubscribeResult where
  | unsubscribed
  | other (name : String)
deriving Repr, DecidableEq

/-- `result.String()` for the values above. -/
def UnsubscribeResult.toName : UnsubscribeResult → String
  | UnsubscribeResult.unsubscribed => "Unsubscribed"
  | UnsubscribeResult.other n => n

/-- Behaviors of `mailtoHandler`'s collaborators: the configured email domain,
`Bouncer.Bounce` (called with the domain, the receipt recipients and the
timestamp; returns a bounce message id and an error), `parseMailtoEvent`
(repository code taking the event and the unsubscribe address, producing the
operation's email/uid pair or a parse error; only its result matters here),
and `Agent.Unsubscribe`. -/
structure MailtoEnv where
  emailDomain : String
  bounce : String → List String → Nat → String × Option String
  parseMailtoEvent : MailtoEvent → String → Except String (String × String)
  unsubscribe : String → String → UnsubscribeResult × Option String

/-- `isSpam` from `mailto.go`. -/
def isSpam (ev : MailtoEvent) : Bool :=
  ev.spfVerdict == "FAIL" || ev.dkimVerdict == "FAIL" ||
    ev.spamVerdict == "FAIL" || ev.virusVerdict == "FAIL"

/-- `bounceIfDmarcFails` from `mailto.go`: calls the bouncer only when the
DMARC verdict is FAIL and the DMARC policy is REJECT. Returns the
`(bounceMessageId, err)` pair and the list of bounce calls performed. -/
def bounceIfDmarcFails (env : MailtoEnv) (ev : MailtoEvent) :
    (String × Option String) × List (List String × Nat) :=
  if ev.dmarcVerdict = "FAIL" ∧ ev.dmarcPolicy = "REJECT" then
    (env.bounce env.emailDomain ev.recipients ev.timestamp,
     [(ev.recipients, ev.timestamp)])
  else (("", none), [])

/-- The line `mailtoHandler.logOutcome` writes. -/
def mailtoLogLine (ev : MailtoEvent) (outcome : String) : String :=
  "unsubscribe [Id:\"" ++ ev.messageId
    ++ "\" From:\"" ++ strJoinWith "," ev.fromAddrs
    ++ "\" To:\"" ++ strJoinWith "," ev.toAddrs
    ++ "\" Subject:\"" ++ ev.subject
    ++ "\"]: " ++ outcome

/-- The observable result of `handleMailtoEvent`: the outcome string, the log
lines written (the code logs exactly once, at the end), and the bounce and
unsubscribe calls performed. -/
structure MailtoResult where
  outcome : String
  logLines : List String
  bounceCalls : List (List String × Nat)
  unsubCalls : List (String × String)
deriving Repr, DecidableEq

/-- `mailtoHandler.handleMailtoEvent` from `mailto.go`: the `if/else if`
outcome chain followed by the single `logOutcome` call. The unsubscribe
address passed to `parseMailtoEvent` is the handler's
`"unsubscribe@" + emailDomain`. -/
def handleMailtoEvent (env : MailtoEnv) (ev : MailtoEvent) : MailtoResult :=
  let b := bounceIfDmarcFails env ev
  let bounceMessageId := b.1.1
  let r :=
    match b.1.2 with
    | some e => ("DMARC bounce failed: " ++ e, ([] : List (String × String)))
    | none =>
      if bounceMessageId ≠ "" then
        ("DMARC bounced with message ID: " ++ bounceMessageId, [])
      else if isSpam ev then
        ("marked as spam, ignored", [])
      else
        match env.parseMailtoEvent ev ("unsubscribe@" ++ env.emailDomain) with
        | Except.error e => ("failed to parse, ignoring: " ++ e, [])
        | Except.ok (email, uid) =>
          match env.unsubscribe email uid with
          | (_, some e) => ("error: " ++ e, [(email, uid)])
          | (result, none) =>
            if result ≠ UnsubscribeResult.unsubscribed then
              ("failed: " ++ result.toName, [(email, uid)])
            else ("success", [(email, uid)])
  ⟨r.1, [mailtoLogLine ev r.1], b.2, r.2⟩

end Mailto

/-! Concrete collaborator behaviors used to instantiate the theorems below. -/

/-- Model of `mail.ParseAddress` on a plain `user@domain` address-spec (no
display name, no quoting): the parse succeeds and the canonical address is the
input itself. -/
def idParse : String → Option String := fun s => some s

/-- Resolver/suppressor behavior where the MX lookup for `b.co` conclusively
reports not-found and the address is not suppressed. -/
def envC1 : Email.Env :=
  ⟨fun _ => ([], some (Email.DnsErr.notFound "lookup b.co: no such host")),
   fun _ => ([], none), fun _ => ([], none),
   fun _ => (false, none), fun _ => none, idParse⟩

/-- Behavior where the MX lookup for `b.co` returns two candidates and every
host lookup conclusively fails, so both candidates fail verification. -/
def envC2 : Email.Env :=
  ⟨fun _ => ([⟨"mx1.b.co", 10⟩, ⟨"mx2.b.co", 20⟩], none),
   fun _ => ([], some (Email.DnsErr.notFound "nf")), fun _ => ([], none),
   fun _ => (false, none), fun _ => none, idParse⟩

/-- Behavior where `mail.ParseAddress` rejects the input. -/
def envC3 : Email.Env :=
  ⟨fun _ => ([], none), fun _ => ([], none), fun _ => ([], none),
   fun _ => (false, none), fun _ => none, fun _ => none⟩

/-- Behavior where the suppressor reports every address as suppressed. -/
def envC6 : Email.Env :=
  ⟨fun _ => ([], none), fun _ => ([], none), fun _ => ([], none),
   fun _ => (true, none), fun _ => none, idParse⟩

/-- Stub resolver/suppressor behavior (never reached on the `C10` input). -/
def envC10 : Email.Env :=
  ⟨fun _ => ([], none), fun _ => ([], none), fun _ => ([], none),
   fun _ => (false, none), fun _ => none, idParse⟩

/-- A subscription agent whose `Remove` and `Restore` always succeed. -/
def agentOk : Handler.Agent := ⟨fun _ => none, fun _ => none⟩

/-- A Complaint event carrying `complaintSubType = "not-spam"` together with
`complaintFeedbackType = "abuse"`. -/
def evC4 : Handler.SesEventRecord :=
  ⟨"Complaint", "m1", ["s@l.co"], ["a@b.co"], "subj", "", "", "not-spam", "abuse", ""⟩

/-- A permanent Bounce event with two recipients. -/
def evC5 : Handler.SesEventRecord :=
  ⟨"Bounce", "m2", ["s@l.co"], ["a@b.co", "c@d.co"], "subj", "Permanent", "General",
   "", "", ""⟩

/-- A record of the unrecognized event type `Open` (per the repository's own
test data). -/
def evC9 : Handler.SesEventRecord :=
  ⟨"Open", "m3", ["f@x.co"], ["t@y.co"], "s", "", "", "", "", ""⟩

/-- A Send record used to instantiate the amended `C9` theorem. -/
def evC9send : Handler.SesEventRecord :=
  ⟨"Send", "m4", ["f@x.co"], ["t@y.co"], "s", "", "", "", "", ""⟩

/-- A Complaint with both classification fields empty (reason `unknown`). -/
def evC4u : Handler.SesEventRecord :=
  ⟨"Complaint", "m5", ["s@l.co"], ["a@b.co"], "subj", "", "", "", "", ""⟩

/-- A record parser for batch instances: `"bad"` fails to parse with message
`"unexpected end of JSON input"`, anything else yields `evC9send`. -/
def parseC7 : String → Except String Handler.SesEventRecord := fun msg =>
  if msg = "bad" then Except.error "unexpected end of JSON input"
  else Except.ok evC9send

/-- A mailto environment: bouncing returns message id `"bid"`, parsing yields
the pair `("u@v.co", "uid1")`, unsubscribing succeeds. -/
def envC8 : Mailto.MailtoEnv :=
  ⟨"l.co", fun _ _ _ => ("bid", none),
   fun _ _ => Except.ok ("u@v.co", "uid1"),
   fun _ _ => (Mailto.UnsubscribeResult.unsubscribed, none)⟩

/-- An inbound mail event failing DMARC with policy REJECT. -/
def evC8 : Mailto.MailtoEvent :=
  ⟨["f@x.co"], ["unsubscribe@l.co"], "s", "m6", 7, ["unsubscribe@l.co"],
   "PASS", "PASS", "PASS", "PASS", "FAIL", "REJECT"⟩

end SesVerifier

namespace SesVerifier

/-- C3: for every input address and every behavior of the resolver, the
suppressor and the address parser, whenever `ValidateAddress` returns (does
not panic), the returned `(failure, err)` pair never has both components
non-nil: a `Rejected` outcome and an `Indeterminate` outcome are never both
produced by one call. -/
theorem c3_rejected_indeterminate_exclusive (env : Email.Env) (address : String)
    (r : Email.VResult) (h : Email.validateAddress env address = some r) :
    r.failure = none ∨ r.err = none := by
  unfold Email.validateAddress at h
  repeat' split at h
  all_goals first
    | exact Option.noConfusion h
    | (cases h; simp)

/-- Witness for `c3_rejected_indeterminate_exclusive` at a concrete
environment and address. -/
theorem c3_witness :
    Email.validateAddress envC3 "not an address" =
      some ⟨some "address failed to parse: not an address", none, []⟩
    ∧ ((some "address failed to parse: not an address" : Option String) = none
        ∨ (none : Option String) = none) := by
  refine ⟨by decide, ?_⟩
  exact c3_rejected_indeterminate_exclusive envC3 "not an address"
    ⟨some "address failed to parse: not an address", none, []⟩ (by decide)

/-- C10: the code, not the claim, is at fault. For the successfully parsed
address `user@internal` (a single-label domain absent from the deny lists),
`isKnownInvalidAddress` reaches `getPrimaryDomain("internal")`, whose slice
expression `parts[len(parts)-2:]` has lower bound `-1`: a Go runtime panic
(modelled as `none`), so `ValidateAddress` panics instead of terminating
normally. -/
theorem c10_single_label_domain_panics :
    Email.getPrimaryDomain "internal" = none
    ∧ Email.isKnownInvalidAddress "user" "internal" = none
    ∧ Email.validateAddress envC10 "user@internal" = none := by decide

/-- C1 counterexample: with an MX lookup that conclusively reports zero
records (resolver not-found) for `b.co`, `ValidateAddress envC1 "a@b.co"`
returns a non-nil `failure` (a Rejected outcome, reason
`address failed DNS validation: ...`) and a nil `err` — not the Indeterminate
outcome the claim states. (`Suppress` is indeed not invoked.) -/
theorem c1_counterexample :
    (Email.validateAddress envC1 "a@b.co").map Email.VResult.failure ≠ some none
    ∧ (Email.validateAddress envC1 "a@b.co").map Email.VResult.err = some none
    ∧ (Email.validateAddress envC1 "a@b.co").map Email.VResult.suppressCalls
        = some [] := by decide

/-- C1 amended: if the MX lookup for the address's domain conclusively
returns zero records (resolver-reported not-found), `ValidateAddress` returns
a Rejected outcome — `failure` wraps the MX-retrieval error, `err` is nil —
and `Suppress` is never invoked for that address. -/
theorem c1_amended_mx_notfound_rejected_no_suppress (env : Email.Env)
    (address email user domain m : String)
    (hparse : env.mailParse address = some email)
    (hsplit : Email.splitAtLastAt email = some (user, domain))
    (hvalid : Email.isKnownInvalidAddress user domain = some false)
    (hsup : env.isSuppressed email = (false, none))
    (hmx : env.lookupMX domain = ([], some (Email.DnsErr.notFound m))) :
    Email.validateAddress env address =
      some ⟨some ("address failed DNS validation: " ++ address ++ ": "
              ++ ("failed to retrieve MX records for " ++ domain ++ ": "
                    ++ ("no records for " ++ domain))),
            none, []⟩ := by
  simp [Email.validateAddress, Email.checkMailHosts, Email.lookupResult,
        Email.optErrMsg, hparse, hsplit, hvalid, hsup, hmx]

/-- Witness for `c1_amended_mx_notfound_rejected_no_suppress` at the concrete
environment `envC1`. -/
theorem c1_witness :
    Email.validateAddress envC1 "a@b.co" =
      some ⟨some ("address failed DNS validation: " ++ "a@b.co" ++ ": "
              ++ ("failed to retrieve MX records for " ++ "b.co" ++ ": "
                    ++ ("no records for " ++ "b.co"))),
            none, []⟩ :=
  c1_amended_mx_notfound_rejected_no_suppress envC1 "a@b.co" "a@b.co" "a" "b.co"
    "lookup b.co: no such host" (by decide) (by decide) (by decide) (by decide)
    (by decide)

/-- C6: if the suppressor reports the canonical address as suppressed,
`ValidateAddress` returns `Rejected("suppressed email address: <addr>")`
without performing any DNS lookup — the result is the same for every resolver
behavior, the three resolver functions being quantified independently of the
conclusion; and if the suppressor query itself fails, `ValidateAddress`
propagates that error as an Indeterminate outcome (nil `failure`, non-nil
`err`), not a rejection, again with no DNS lookups and no suppression. -/
theorem c6_suppressed_short_circuit
    (lmx : String → List Email.MX × Option Email.DnsErr)
    (lhost laddr : String → List String × Option Email.DnsErr)
    (isSup : String → Bool × Option String) (supp : String → Option String)
    (mp : String → Option String) (address email user domain : String)
    (hparse : mp address = some email)
    (hsplit : Email.splitAtLastAt email = some (user, domain))
    (hvalid : Email.isKnownInvalidAddress user domain = some false) :
    (isSup email = (true, none) →
      Email.validateAddress ⟨lmx, lhost, laddr, isSup, supp, mp⟩ address =
        some ⟨some ("suppressed email address: " ++ address), none, []⟩)
    ∧ (∀ b e, isSup email = (b, some e) →
      Email.validateAddress ⟨lmx, lhost, laddr, isSup, supp, mp⟩ address =
        some ⟨none, some e, []⟩) := by
  constructor
  · intro hsup
    simp [Email.validateAddress, hparse, hsplit, hvalid, hsup]
  · intro b e hsup
    simp [Email.validateAddress, hparse, hsplit, hvalid, hsup]

/-- Witness for `c6_suppressed_short_circuit` at the concrete environment
`envC6` (both branches instantiated: the suppressed case directly, the
error case via a second suppressor behavior). -/
theorem c6_witness :
    Email.validateAddress envC6 "a@b.co" =
      some ⟨some ("suppressed email address: " ++ "a@b.co"), none, []⟩ :=
  (c6_suppressed_short_circuit envC6.lookupMX envC6.lookupHost envC6.lookupAddr
      envC6.isSuppressed envC6.suppress envC6.mailParse "a@b.co" "a@b.co" "a"
      "b.co" (by decide) (by decide) (by decide)).1 (by decide)

/-- C4 counterexample: for a Complaint with `complaintSubType = "not-spam"`
and `complaintFeedbackType = "abuse"`, the dispatcher restores the recipient
even though `complaintFeedbackType ≠ "not-spam"` — the restore decision
follows the computed reason (subtype first), not `complaintFeedbackType`, so
the claim's `if and only if` is false. -/
theorem c4_counterexample :
    (Handler.handleSesEvent agentOk evC4 "d").2 = [Handler.AgentCall.restore "a@b.co"]
    ∧ evC4.complaintFeedbackType ≠ "not-spam" := by decide

/-- C4 amended: for every Complaint event the dispatcher computes the
effective reason — `complaintSubType` if non-empty, else
`complaintFeedbackType` if non-empty, else `"unknown"` — restores all
recipients if and only if that reason equals `"not-spam"`, removes them
otherwise, and uses that same reason in every per-recipient outcome line. -/
theorem c4_amended_complaint_reason_routing (agent : Handler.Agent)
    (ev : Handler.SesEventRecord) (details : String)
    (h : ev.eventType = "Complaint") :
    (Handler.complaintReasonSpec ev = "not-spam" →
      Handler.handleSesEvent agent ev details =
        (ev.toAddrs.map (fun email => Handler.logOutcome ev details
            (Handler.updateRecipient
              ⟨agent.restoreErr, "restored", "error restoring", Handler.AgentCall.restore⟩
              email (Handler.complaintReasonSpec ev))),
         ev.toAddrs.map Handler.AgentCall.restore))
    ∧ (Handler.complaintReasonSpec ev ≠ "not-spam" →
      Handler.handleSesEvent agent ev details =
        (ev.toAddrs.map (fun email => Handler.logOutcome ev details
            (Handler.updateRecipient
              ⟨agent.removeErr, "removed", "error removing", Handler.AgentCall.remove⟩
              email (Handler.complaintReasonSpec ev))),
         ev.toAddrs.map Handler.AgentCall.remove)) := by
  constructor <;> intro hr <;>
    by_cases hs : ev.complaintSubType = "" <;>
    by_cases hf : ev.complaintFeedbackType = "" <;>
    simp_all [Handler.handleSesEvent, Handler.complaintReasonSpec,
      Handler.restoreRecipients, Handler.removeRecipients,
      Handler.updateRecipients]

/-- Witness for `c4_amended_complaint_reason_routing` at the concrete event
`evC4` (restore branch). -/
theorem c4_witness :
    Handler.handleSesEvent agentOk evC4 "d" =
      (evC4.toAddrs.map (fun email => Handler.logOutcome evC4 "d"
          (Handler.updateRecipient
            ⟨agentOk.restoreErr, "restored", "error restoring", Handler.AgentCall.restore⟩
            email (Handler.complaintReasonSpec evC4))),
       evC4.toAddrs.map Handler.AgentCall.restore) :=
  (c4_amended_complaint_reason_routing agentOk evC4 "d" (by decide)).1 (by decide)

/-- C5: for every Bounce event, if `bounceType = "Transient"` the dispatcher
makes zero agent calls and logs the single audit line whose outcome is
`not removing recipients: <type>/<subtype>`; for any other `bounceType` it
calls `Remove` exactly once per recipient of the `to` list, in order, logging
one outcome line per recipient with reason `<type>/<subtype>`. -/
theorem c5_bounce_routing (agent : Handler.Agent) (ev : Handler.SesEventRecord)
    (details : String) (h : ev.eventType = "Bounce") :
    (ev.bounceType = "Transient" →
      Handler.handleSesEvent agent ev details =
        ([Handler.logOutcome ev details
            ("not removing recipients: " ++ (ev.bounceType ++ "/" ++ ev.bounceSubType))],
         []))
    ∧ (ev.bounceType ≠ "Transient" →
      Handler.handleSesEvent agent ev details =
        (ev.toAddrs.map (fun email => Handler.logOutcome ev details
            (Handler.updateRecipient
              ⟨agent.removeErr, "removed", "error removing", Handler.AgentCall.remove⟩
              email (ev.bounceType ++ "/" ++ ev.bounceSubType))),
         ev.toAddrs.map Handler.AgentCall.remove)) := by
  constructor <;> intro hb <;>
    simp [Handler.handleSesEvent, Handler.removeRecipients,
      Handler.updateRecipients, h, hb]

/-- Witness for `c5_bounce_routing` at the concrete Permanent/General bounce
`evC5` with two recipients. -/
theorem c5_witness :
    Handler.handleSesEvent agentOk evC5 "d" =
      (evC5.toAddrs.map (fun email => Handler.logOutcome evC5 "d"
          (Handler.updateRecipient
            ⟨agentOk.removeErr, "removed", "error removing", Handler.AgentCall.remove⟩
            email (evC5.bounceType ++ "/" ++ evC5.bounceSubType))),
       evC5.toAddrs.map Handler.AgentCall.remove) :=
  (c5_bounce_routing agentOk evC5 "d" (by decide)).2 (by decide)

/-- `logOutcome` writes the §6 audit head followed by the outcome and the raw
details. -/
theorem logOutcome_eq_head (ev : Handler.SesEventRecord) (details outcome : String) :
    Handler.logOutcome ev details outcome =
      Handler.sesAuditHead ev ++ outcome ++ ": " ++ details := rfl

/-- Every line `logOutcome` writes starts with the §6 audit head. -/
theorem sesAuditHead_le_logOutcome (ev : Handler.SesEventRecord)
    (details outcome : String) :
    (Handler.sesAuditHead ev).data <+: (Handler.logOutcome ev details outcome).data := by
  rw [logOutcome_eq_head]
  exact ⟨(outcome ++ ": " ++ details).data, by simp [String.data_append]⟩

/-- The complaint handler's computed reason coincides with the amended
claim's formulation. -/
theorem complaintReasonSpec_eq (ev : Handler.SesEventRecord) :
    (if (if ev.complaintSubType = "" then ev.complaintFeedbackType
         else ev.complaintSubType) = "" then "unknown"
     else if ev.complaintSubType = "" then ev.complaintFeedbackType
          else ev.complaintSubType) = Handler.complaintReasonSpec ev := by
  unfold Handler.complaintReasonSpec
  by_cases hs : ev.complaintSubType = "" <;>
    by_cases hf : ev.complaintFeedbackType = "" <;> simp [hs, hf]

/-- Complaint dispatch, packaged as a single equation on the effective
reason. -/
theorem handleSesEvent_complaint (agent : Handler.Agent)
    (ev : Handler.SesEventRecord) (details : String)
    (h : ev.eventType = "Complaint") :
    Handler.handleSesEvent agent ev details =
      (if Handler.complaintReasonSpec ev = "not-spam" then
        (ev.toAddrs.map (fun email => Handler.logOutcome ev details
            (Handler.updateRecipient
              ⟨agent.restoreErr, "restored", "error restoring", Handler.AgentCall.restore⟩
              email (Handler.complaintReasonSpec ev))),
         ev.toAddrs.map Handler.AgentCall.restore)
      else
        (ev.toAddrs.map (fun email => Handler.logOutcome ev details
            (Handler.updateRecipient
              ⟨agent.removeErr, "removed", "error removing", Handler.AgentCall.remove⟩
              email (Handler.complaintReasonSpec ev))),
         ev.toAddrs.map Handler.AgentCall.remove)) := by
  by_cases hs : ev.complaintSubType = "" <;>
    by_cases hf : ev.complaintFeedbackType = "" <;>
    simp [Handler.handleSesEvent, Handler.complaintReasonSpec,
      Handler.restoreRecipients, Handler.removeRecipients,
      Handler.updateRecipients, h, hs, hf]

/-- C9 counterexample: a successfully parsed record of the unrecognized event
type `Open` produces only the line `unimplemented event type: Open`, which
does not start with the §6 audit head, so it is not of the §6 form the claim
requires. -/
theorem c9_counterexample :
    Handler.handleSesEvent agentOk evC9 "d" = (["unimplemented event type: Open"], [])
    ∧ List.isPrefixOf (Handler.sesAuditHead evC9).data
        ("unimplemented event type: Open").data = false := by decide

/-- C9 amended: every successfully parsed record of a recognized event type
(Bounce, Complaint, Reject, Send, Delivery) produces only §6-form audit lines
(each starts with the §6 audit head), and their number is: 1 for Reject, Send,
Delivery and Transient bounces, and one per recipient of the `to` list for
non-Transient bounces and Complaints (hence none when `to` is empty); a record
of an unrecognized event type instead produces the single line
`unimplemented event type: <type>`, which is not of the §6 form (see the
counterexample). -/
theorem c9_amended_audit_lines (agent : Handler.Agent)
    (ev : Handler.SesEventRecord) (details : String) :
    (Handler.recognizedSesEventType ev.eventType = false →
      (Handler.handleSesEvent agent ev details).1 =
        ["unimplemented event type: " ++ ev.eventType])
    ∧ (Handler.recognizedSesEventType ev.eventType = true →
      (∀ line ∈ (Handler.handleSesEvent agent ev details).1,
        (Handler.sesAuditHead ev).data <+: line.data)
      ∧ (Handler.handleSesEvent agent ev details).1.length =
          (if ev.eventType = "Bounce" then
             (if ev.bounceType = "Transient" then 1 else ev.toAddrs.length)
           else if ev.eventType = "Complaint" then ev.toAddrs.length
           else 1)) := by
  constructor
  · intro hun
    simp only [Handler.recognizedSesEventType, Bool.or_eq_false_iff,
      beq_eq_false_iff_ne, ne_eq] at hun
    obtain ⟨⟨⟨⟨h1, h2⟩, h3⟩, h4⟩, h5⟩ := hun
    simp [Handler.handleSesEvent, h1, h2, h3, h4, h5]
  · intro hrec
    simp only [Handler.recognizedSesEventType, Bool.or_eq_true, beq_iff_eq] at hrec
    rcases hrec with ((((h | h) | h) | h) | h)
    · by_cases ht : ev.bounceType = "Transient"
      · simp [Handler.handleSesEvent, h, ht, sesAuditHead_le_logOutcome]
      · constructor
        · intro line hline
          simp [Handler.handleSesEvent, Handler.removeRecipients,
            Handler.updateRecipients, h, ht] at hline
          obtain ⟨email, _, rfl⟩ := hline
          exact sesAuditHead_le_logOutcome ev details _
        · simp [Handler.handleSesEvent, Handler.removeRecipients,
            Handler.updateRecipients, h, ht]
    · rw [handleSesEvent_complaint agent ev details h]
      constructor
      · intro line hline
        by_cases hr : Handler.complaintReasonSpec ev = "not-spam"
        · simp [hr] at hline
          obtain ⟨email, _, rfl⟩ := hline
          exact sesAuditHead_le_logOutcome ev details _
        · simp [hr] at hline
          obtain ⟨email, _, rfl⟩ := hline
          exact sesAuditHead_le_logOutcome ev details _
      · by_cases hr : Handler.complaintReasonSpec ev = "not-spam" <;> simp [hr, h]
    · simp [Handler.handleSesEvent, h, sesAuditHead_le_logOutcome]
    · simp [Handler.handleSesEvent, h, sesAuditHead_le_logOutcome]
    · simp [Handler.handleSesEvent, h, sesAuditHead_le_logOutcome]

/-- Witness for `c9_amended_audit_lines` at the concrete Send record
`evC9send` (recognized branch: a single §6-form line). -/
theorem c9_witness :
    Handler.recognizedSesEventType evC9send.eventType = true
    ∧ (Handler.handleSesEvent agentOk evC9send "d").1.length =
        (if evC9send.eventType = "Bounce" then
           (if evC9send.bounceType = "Transient" then 1 else evC9send.toAddrs.length)
         else if evC9send.eventType = "Complaint" then evC9send.toAddrs.length
         else 1) :=
  ⟨by decide, ((c9_amended_audit_lines agentOk evC9send "d").2 (by decide)).2⟩

/-- Batch handling distributes over list append: records are processed one by
one, each contributing its own log lines and agent calls. -/
theorem handleSnsEvent_append (agent : Handler.Agent)
    (parseSes : String → Except String Handler.SesEventRecord)
    (l1 l2 : List String) :
    Handler.handleSnsEvent agent parseSes (l1 ++ l2) =
      ((Handler.handleSnsEvent agent parseSes l1).1
         ++ (Handler.handleSnsEvent agent parseSes l2).1,
       (Handler.handleSnsEvent agent parseSes l1).2
         ++ (Handler.handleSnsEvent agent parseSes l2).2) := by
  induction l1 with
  | nil => simp [Handler.handleSnsEvent]
  | cons m rest ih => simp [Handler.handleSnsEvent, ih]

/-- C7: failures are isolated at both dispatcher levels. A record that fails
to parse contributes exactly one parse-error log line while every record
before and after it in the batch is still processed (the batch output is the
concatenation of the records' individual outputs); and within one record's
remove/restore action there is one outcome line per recipient of the `to`
list, and changing the agent's behavior at one recipient `x` (say, making it
fail) leaves the outcome lines of every other recipient unchanged. -/
theorem c7_failure_isolation (agent : Handler.Agent)
    (parseSes : String → Except String Handler.SesEventRecord)
    (pre post : List String) (bad e : String)
    (hbad : parseSes bad = Except.error e)
    (act1 act2 : String → Option String) (sp ep : String)
    (mk : String → Handler.AgentCall) (ev : Handler.SesEventRecord)
    (details reason x : String)
    (hagree : ∀ y, y ≠ x → act1 y = act2 y) :
    ((Handler.handleSnsEvent agent parseSes (pre ++ bad :: post)).1 =
        (Handler.handleSnsEvent agent parseSes pre).1
          ++ ("parsing SES event from SNS failed: " ++ e ++ ": " ++ bad)
            :: (Handler.handleSnsEvent agent parseSes post).1)
    ∧ ((Handler.handleSnsEvent agent parseSes (pre ++ bad :: post)).2 =
        (Handler.handleSnsEvent agent parseSes pre).2
          ++ (Handler.handleSnsEvent agent parseSes post).2)
    ∧ (Handler.updateRecipients ⟨act1, sp, ep, mk⟩ ev details reason).1.length
        = ev.toAddrs.length
    ∧ (∀ (i : Nat) (em : String), ev.toAddrs[i]? = some em → em ≠ x →
        (Handler.updateRecipients ⟨act1, sp, ep, mk⟩ ev details reason).1[i]? =
          (Handler.updateRecipients ⟨act2, sp, ep, mk⟩ ev details reason).1[i]?) := by
  refine ⟨?_, ?_, ?_, ?_⟩
  · rw [handleSnsEvent_append]
    simp [Handler.handleSnsEvent, hbad]
  · rw [handleSnsEvent_append]
    simp [Handler.handleSnsEvent, hbad]
  · simp [Handler.updateRecipients]
  · intro i em hm hne
    simp [Handler.updateRecipients, List.getElem?_map, hm,
      Handler.updateRecipient, hagree em hne]

/-- Witness for `c7_failure_isolation`: a three-record batch whose middle
record fails to parse, and two agent behaviors differing only at the
recipient `x@x.co`. -/
theorem c7_witness :
    parseC7 "bad" = Except.error "unexpected end of JSON input"
    ∧ (∀ y, y ≠ "x@x.co" →
        (none : Option String) = (if y = "x@x.co" then some "boom" else none))
    ∧ (Handler.handleSnsEvent agentOk parseC7 (["g1"] ++ "bad" :: ["g2"])).1 =
        (Handler.handleSnsEvent agentOk parseC7 ["g1"]).1
          ++ ("parsing SES event from SNS failed: "
                ++ "unexpected end of JSON input" ++ ": " ++ "bad")
            :: (Handler.handleSnsEvent agentOk parseC7 ["g2"]).1 := by
  refine ⟨by rfl, fun y hy => by simp [hy], ?_⟩
  exact (c7_failure_isolation agentOk parseC7 ["g1"] ["g2"] "bad"
      "unexpected end of JSON input" (by rfl)
      (fun _ => none) (fun y => if y = "x@x.co" then some "boom" else none)
      "removed" "error removing" Handler.AgentCall.remove
      evC9send "d" "r" "x@x.co"
      (fun y hy => by simp [hy])).1

/-- C8: the inbound-mail abuse filter evaluates its branches in strict
priority order, and logs exactly one outcome line per inbound message. If the
DMARC verdict is FAIL and the DMARC policy is REJECT, the bouncer is invoked
once for the declared recipients and no unsubscribe parsing or call happens
(under the bouncer's contract of returning a non-empty message id or an
error); otherwise no bounce is issued, and if any of the SPF / DKIM / spam /
virus verdicts is FAIL the message is classified as spam with no action taken,
else the message is parsed as an unsubscribe command and, when parsing
succeeds, the agent's unsubscribe operation is invoked exactly once with the
parsed email/uid pair. -/
theorem c8_mailto_priority_order (env : Mailto.MailtoEnv) (ev : Mailto.MailtoEvent)
    (hb : env.bounce env.emailDomain ev.recipients ev.timestamp ≠ ("", none)) :
    ((Mailto.handleMailtoEvent env ev).logLines =
        [Mailto.mailtoLogLine ev (Mailto.handleMailtoEvent env ev).outcome])
    ∧ (ev.dmarcVerdict = "FAIL" ∧ ev.dmarcPolicy = "REJECT" →
        (Mailto.handleMailtoEvent env ev).bounceCalls = [(ev.recipients, ev.timestamp)]
        ∧ (Mailto.handleMailtoEvent env ev).unsubCalls = [])
    ∧ (¬(ev.dmarcVerdict = "FAIL" ∧ ev.dmarcPolicy = "REJECT") →
        (Mailto.handleMailtoEvent env ev).bounceCalls = []
        ∧ (Mailto.isSpam ev = true →
            (Mailto.handleMailtoEvent env ev).unsubCalls = []
            ∧ (Mailto.handleMailtoEvent env ev).outcome = "marked as spam, ignored")
        ∧ (Mailto.isSpam ev = false →
            ∀ email uid,
              env.parseMailtoEvent ev ("unsubscribe@" ++ env.emailDomain)
                = Except.ok (email, uid) →
              (Mailto.handleMailtoEvent env ev).unsubCalls = [(email, uid)])) := by
  refine ⟨rfl, ?_, ?_⟩
  · intro hd
    obtain ⟨hv, hp⟩ := hd
    unfold Mailto.handleMailtoEvent Mailto.bounceIfDmarcFails
    rcases hbc : env.bounce env.emailDomain ev.recipients ev.timestamp with ⟨mid, be⟩
    cases be with
    | some e2 => simp [hv, hp, hbc]
    | none =>
      have hmid : ¬mid = "" := by
        intro hmid0
        exact hb (by rw [hbc, hmid0])
      simp [hv, hp, hbc, hmid]
  · intro hd
    have hbd : Mailto.bounceIfDmarcFails env ev = (("", none), []) := by
      unfold Mailto.bounceIfDmarcFails
      simp [hd]
    unfold Mailto.handleMailtoEvent
    rw [hbd]
    refine ⟨rfl, ?_, ?_⟩
    · intro hsp
      simp [hsp]
    · intro hsp email uid hp
      rcases hu : env.unsubscribe email uid with ⟨res, ue⟩
      cases ue with
      | some e2 => simp [hsp, hp, hu]
      | none =>
        by_cases hres : res = Mailto.UnsubscribeResult.unsubscribed <;>
          simp [hsp, hp, hu, hres]

/-- Witness for `c8_mailto_priority_order` at the concrete DMARC-failing
event `evC8` and environment `envC8`. -/
theorem c8_witness :
    envC8.bounce envC8.emailDomain evC8.recipients evC8.timestamp ≠ ("", none)
    ∧ (Mailto.handleMailtoEvent envC8 evC8).bounceCalls
        = [(evC8.recipients, evC8.timestamp)]
    ∧ (Mailto.handleMailtoEvent envC8 evC8).unsubCalls = [] := by
  refine ⟨by decide, ?_⟩
  exact (c8_mailto_priority_order envC8 evC8 (by decide)).2.1 (by decide)

/-- A string is contained in the append placing it second. -/
theorem strInfix_right (a b : String) : b.data <:+: (a ++ b).data := by
  refine ⟨a.data, [], ?_⟩
  simp [String.data_append]

/-- A string is contained in a four-part append placing it second. -/
theorem strInfix_mid4 (a b c d : String) : b.data <:+: (a ++ b ++ c ++ d).data := by
  refine ⟨a.data, (c ++ d).data, ?_⟩
  simp [String.data_append]

/-- Every error message produced by the `lookup` wrapper mentions the lookup
target. -/
theorem lookupResult_err_contains {α : Type} (target : String)
    (raw : List α × Option Email.DnsErr) (vs : List α) (m : String)
    (h : Email.lookupResult target raw = (vs, some m)) :
    target.data <:+: m.data := by
  obtain ⟨values, err⟩ := raw
  cases values with
  | cons a l =>
    simp only [Email.lookupResult, List.isEmpty_cons, Bool.false_eq_true,
      if_false, Prod.mk.injEq] at h
    exact absurd h.2 (by simp)
  | nil =>
    rcases err with _ | de
    · simp only [Email.lookupResult, List.isEmpty_nil, if_true,
        Prod.mk.injEq, Option.some.injEq] at h
      obtain ⟨h1, h2⟩ := h
      subst h2
      apply strInfix_mid4
    · cases de with
      | notFound m0 =>
        simp only [Email.lookupResult, List.isEmpty_nil, if_true,
          Prod.mk.injEq, Option.some.injEq] at h
        obtain ⟨h1, h2⟩ := h
        subst h2
        exact strInfix_right "no records for " target
      | other m0 =>
        simp only [Email.lookupResult, List.isEmpty_nil, if_true,
          Prod.mk.injEq, Option.some.injEq] at h
        obtain ⟨h1, h2⟩ := h
        subst h2
        apply strInfix_mid4

/-- Every error message produced by `checkMailHost` mentions the MX host it
was checking. -/
theorem checkMailHost_err_contains (env : Email.Env) (h e : String)
    (hc : Email.checkMailHost env h = some e) : h.data <:+: e.data := by
  rcases hl : Email.lookupResult h (env.lookupHost h) with ⟨ips, err⟩
  cases err with
  | some m =>
    simp only [Email.checkMailHost, hl, Option.some.injEq] at hc
    subst hc
    exact lookupResult_err_contains h _ ips _ hl
  | none =>
    rcases hf : Email.firstFailures
        (Email.checkReverseLookupHostResolvesToOriginalIp env) ips with _ | errs
    · simp only [Email.checkMailHost, hl, hf] at hc
      exact Option.noConfusion hc
    · simp only [Email.checkMailHost, hl, hf, Option.some.injEq] at hc
      subst hc
      refine ⟨("reverse lookup of addresses for ").data,
              (" failed: " ++ joinErrs errs).data, ?_⟩
      simp [String.data_append]

/-- Each member of a list of error messages is contained in their
`errors.Join` rendering. -/
theorem mem_joinErrs (e : String) (errs : List String) (h : e ∈ errs) :
    e.data <:+: (joinErrs errs).data := by
  induction errs with
  | nil => cases h
  | cons a as ih =>
    cases as with
    | nil =>
      obtain rfl := List.mem_singleton.mp h
      simp [joinErrs, strJoinWith]
    | cons b bs =>
      rcases List.mem_cons.mp h with rfl | h2
      · refine ⟨[], ("\n" ++ joinErrs (b :: bs)).data, ?_⟩
        simp [joinErrs, strJoinWith, String.data_append]
      · obtain ⟨u, v, huv⟩ := ih h2
        refine ⟨(a ++ "\n").data ++ u, v, ?_⟩
        have hj : joinErrs (a :: b :: bs) = a ++ "\n" ++ joinErrs (b :: bs) := by
          simp [joinErrs, strJoinWith]
        rw [hj, String.data_append, String.data_append, ← huv]
        simp [String.data_append, List.append_assoc]

/-- `firstFailures` returning `some` pairs every element with its error. -/
theorem firstFailures_forall₂ {α : Type} (f : α → Option String) (l : List α)
    (errs : List String) (h : Email.firstFailures f l = some errs) :
    List.Forall₂ (fun a e => f a = some e) l errs := by
  induction l generalizing errs with
  | nil =>
    unfold Email.firstFailures at h
    cases h
    exact List.Forall₂.nil
  | cons a as ih =>
    unfold Email.firstFailures at h
    rcases hf : f a with _ | e
    · rw [hf] at h
      exact Option.noConfusion h
    · rw [hf] at h
      rcases hrest : Email.firstFailures f as with _ | es
      · rw [hrest] at h
        exact Option.noConfusion h
      · rw [hrest] at h
        cases h
        exact List.Forall₂.cons hf (ih es hrest)

/-- When every element fails, `firstFailures` collects their errors. -/
theorem firstFailures_allFail {α : Type} (f : α → Option String) (l : List α)
    (hall : ∀ a ∈ l, f a ≠ none) :
    ∃ errs, Email.firstFailures f l = some errs := by
  induction l with
  | nil => exact ⟨[], rfl⟩
  | cons a as ih =>
    rcases hf : f a with _ | e
    · exact absurd hf (hall a (by simp))
    · obtain ⟨es, hes⟩ := ih (fun b hb => hall b (by simp [hb]))
      refine ⟨e :: es, ?_⟩
      unfold Email.firstFailures
      rw [hf, hes]

/-- A `Forall₂` relation sends every member of the left list to a related
member of the right one. -/
theorem forall₂_mem_left {α β : Type} {R : α → β → Prop} {l : List α}
    {l2 : List β} (h : List.Forall₂ R l l2) {a : α} (ha : a ∈ l) :
    ∃ b ∈ l2, R a b := by
  induction h with
  | nil => cases ha
  | cons hr hrest ih =>
    rcases List.mem_cons.mp ha with rfl | ha2
    · exact ⟨_, by simp, hr⟩
    · obtain ⟨b, hb, hrb⟩ := ih ha2
      exact ⟨b, by simp [hb], hrb⟩

/-- C2: if the MX lookup succeeded with at least one candidate but every MX
candidate fails host verification, `ValidateAddress` calls `Suppress` exactly
once, for the canonical address, and returns a Rejected outcome (nil `err`)
whose message aggregates the diagnostics of every failed candidate: each
attempted MX host appears in the rejection message. -/
theorem c2_all_mx_fail_suppress_once_aggregated (env : Email.Env)
    (address email user domain : String) (mxs : List Email.MX)
    (e0 : Option Email.DnsErr)
    (hparse : env.mailParse address = some email)
    (hsplit : Email.splitAtLastAt email = some (user, domain))
    (hvalid : Email.isKnownInvalidAddress user domain = some false)
    (hsup : env.isSuppressed email = (false, none))
    (hmx : env.lookupMX domain = (mxs, e0))
    (hne : mxs ≠ [])
    (hfail : ∀ mx ∈ mxs, Email.checkMailHost env mx.host ≠ none) :
    ∃ r, Email.validateAddress env address = some r
      ∧ r.suppressCalls = [email]
      ∧ r.err = none
      ∧ ∃ msg, r.failure = some msg
          ∧ ∀ mx ∈ mxs, mx.host.data <:+: msg.data := by
  have hempty : mxs.isEmpty = false := by
    cases mxs with
    | nil => exact absurd rfl hne
    | cons a l => rfl
  have hlr : Email.lookupResult domain (env.lookupMX domain) = (mxs, none) := by
    rw [hmx]
    simp only [Email.lookupResult, hempty, Bool.false_eq_true, if_false]
  obtain ⟨errs, herrs⟩ :=
    firstFailures_allFail (fun r => Email.checkMailHost env r.host) mxs hfail
  have hmem : ∀ mx ∈ mxs, mx.host.data <:+: (joinErrs errs).data := by
    intro mx hm
    obtain ⟨em, hemm, hfe⟩ :=
      forall₂_mem_left (firstFailures_forall₂ _ _ _ herrs) hm
    exact (checkMailHost_err_contains env mx.host em hfe).trans
      (mem_joinErrs em errs hemm)
  rcases hsupp : env.suppress email with _ | s
  · have hc : Email.checkMailHosts env email domain =
        (some ("no valid MX hosts for " ++ domain ++ ": " ++ joinErrs errs),
         [email]) := by
      simp only [Email.checkMailHosts, hlr, hempty, Bool.false_eq_true,
        if_false, herrs, hsupp]
    refine ⟨⟨some ("address failed DNS validation: " ++ address ++ ": "
              ++ ("no valid MX hosts for " ++ domain ++ ": " ++ joinErrs errs)),
            none, [email]⟩,
      by simp [Email.validateAddress, hparse, hsplit, hvalid, hsup, hc],
      rfl, rfl,
      ("address failed DNS validation: " ++ address ++ ": "
        ++ ("no valid MX hosts for " ++ domain ++ ": " ++ joinErrs errs)),
      rfl, ?_⟩
    intro mx hm
    refine (hmem mx hm).trans ?_
    refine ⟨("address failed DNS validation: " ++ address ++ ": "
              ++ ("no valid MX hosts for " ++ domain ++ ": ")).data, [], ?_⟩
    simp [String.data_append]
  · have hc : Email.checkMailHosts env email domain =
        (some ("no valid MX hosts for " ++ domain ++ ": " ++ joinErrs errs
                 ++ "\n" ++ s),
         [email]) := by
      simp only [Email.checkMailHosts, hlr, hempty, Bool.false_eq_true,
        if_false, herrs, hsupp]
    refine ⟨⟨some ("address failed DNS validation: " ++ address ++ ": "
              ++ ("no valid MX hosts for " ++ domain ++ ": " ++ joinErrs errs
                    ++ "\n" ++ s)),
            none, [email]⟩,
      by simp [Email.validateAddress, hparse, hsplit, hvalid, hsup, hc],
      rfl, rfl,
      ("address failed DNS validation: " ++ address ++ ": "
        ++ ("no valid MX hosts for " ++ domain ++ ": " ++ joinErrs errs
              ++ "\n" ++ s)),
      rfl, ?_⟩
    intro mx hm
    refine (hmem mx hm).trans ?_
    refine ⟨("address failed DNS validation: " ++ address ++ ": "
              ++ ("no valid MX hosts for " ++ domain ++ ": ")).data,
            ("\n" ++ s).data, ?_⟩
    simp [String.data_append]

/-- Witness for `c2_all_mx_fail_suppress_once_aggregated` at the concrete
environment `envC2` (two MX candidates, both failing verification). -/
theorem c2_witness :
    ∃ r, Email.validateAddress envC2 "a@b.co" = some r
      ∧ r.suppressCalls = ["a@b.co"]
      ∧ r.err = none
      ∧ ∃ msg, r.failure = some msg
          ∧ ∀ mx ∈ [(⟨"mx1.b.co", 10⟩ : Email.MX), ⟨"mx2.b.co", 20⟩],
              mx.host.data <:+: msg.data :=
  c2_all_mx_fail_suppress_once_aggregated envC2 "a@b.co" "a@b.co" "a" "b.co"
    [⟨"mx1.b.co", 10⟩, ⟨"mx2.b.co", 20⟩] none (by decide) (by decide) (by decide)
    (by decide) (by decide) (by decide) (by decide)

end SesVerifier
